import Mathlib

/-!
Shallow embedding of `src/search.py` (flights-exploration).

The program drives a browser over Google Flights.  The pure logic —
query parsing, date/time validation, UTC conversion, record extraction,
and the pagination loop's result assembly — is translated here from the
source.  External collaborators (the geocoder, the timezone databases,
the browser page) are modelled as explicit functional parameters; the
DOM contents that the scraper reads are modelled as data.

Strings are ASCII here: CPython's `re` and `strptime` are Unicode-aware,
but every claim under study concerns ASCII inputs, and on ASCII the
character classes `\w`, `\d`, `\s` coincide with the predicates below.
-/

namespace FlightsSearch

/-! ## Characters and regex building blocks

`parse_query` (src/search.py:232-262) matches the anchored-at-start
pattern `(\w+) (\w+) (\d{2}-\d{2}-\d{4})(?: (\d{2}-\d{2}-\d{4}))?`
with `re.match`.  Because `\w` cannot match `' '`, the only way
`\w+ ' '` can succeed is for `\w+` to capture the maximal run of word
characters, with a literal space right after it; the fixed-width date
groups admit no backtracking.  The match is therefore deterministic and
is embedded as the straight-line matcher `re_match` below.  `re.match`
does not anchor the end of the string, so trailing text is ignored.
-/

/-- Python `\w` (ASCII fragment): letters, digits, underscore. -/
def isWordChar (c : Char) : Bool := c.isAlphanum || c == '_'

/-- Split off the maximal leading run of word characters
(the text a greedy `\w+` consumes). -/
def splitWord : List Char → List Char × List Char
  | [] => ([], [])
  | c :: rest =>
    if isWordChar c then
      let p := splitWord rest
      (c :: p.1, p.2)
    else ([], c :: rest)

/-- Match `\d{2}-\d{2}-\d{4}` at the head of the input; on success return
the ten matched characters and the remainder. -/
def matchDate (cs : List Char) : Option (List Char × List Char) :=
  match cs with
  | a :: b :: '-' :: c :: d :: '-' :: e :: f :: g :: h :: rest =>
    if a.isDigit && b.isDigit && c.isDigit && d.isDigit &&
       e.isDigit && f.isDigit && g.isDigit && h.isDigit then
      some ([a, b, '-', c, d, '-', e, f, g, h], rest)
    else none
  | _ => none

/-- The optional fourth group `(?: (\d{2}-\d{2}-\d{4}))?`: greedy, so it
captures when a space and a date-shaped run follow, else matches empty
(trailing text after it is never required to match). -/
def retOf (rest : List Char) : Option (List Char) :=
  match rest with
  | ' ' :: r6 =>
    match matchDate r6 with
    | some (d2, _) => some d2
    | none => none
  | _ => none

/-- The whole pattern of `parse_query`, applied with `re.match` semantics
(anchored at the start, free at the end).  Returns the four capture
groups; group 4 is `none` when the optional return date is absent. -/
def re_match (cs : List Char) :
    Option (List Char × List Char × List Char × Option (List Char)) :=
  match splitWord cs with
  | ([], _) => none
  | (c1 :: w1, r1) =>
    match r1 with
    | ' ' :: r2 =>
      match splitWord r2 with
      | ([], _) => none
      | (c2 :: w2, r3) =>
        match r3 with
        | ' ' :: r4 =>
          match matchDate r4 with
          | none => none
          | some (d1, r5) => some (c1 :: w1, c2 :: w2, d1, retOf r5)
        | _ => none
    | _ => none

/-! ## `datetime.strptime` for the formats used by the source

The source validates dates with `datetime.strptime(s, '%d-%m-%Y')`
(src/search.py:256-258) and parses the combined date/time with
`datetime.strptime(s, '%d-%m-%Y %I:%M %p')` (src/search.py:73).
CPython compiles each directive to a regex alternation —
`%d ↦ 3[01]|[12]\d|0[1-9]|[1-9]`, `%m`,`%I ↦ 1[0-2]|0[1-9]|[1-9]`,
`%M ↦ [0-5]\d|\d`, `%Y ↦ \d\d\d\d`, whitespace to `\s+`, `%p` to
`AM|PM` case-insensitively — matches the whole string, and finally
builds a `datetime`, which re-checks `1 <= year <= 9999` and the day
against the month length.  The parsers below mirror this, including the
fall-back from a two-digit to a one-digit reading when the continuation
fails (the regex alternations list the two-digit branches first). -/

/-- Numeric value of an ASCII digit character. -/
def digitVal (c : Char) : Nat := c.toNat - 48

/-- Leap year rule used by `datetime` (proleptic Gregorian). -/
def isLeap (y : Nat) : Bool := (y % 4 == 0 && y % 100 != 0) || y % 400 == 0

/-- Number of days in a month, as `datetime` validates them. -/
def daysInMonth (m y : Nat) : Nat :=
  if m = 2 then (if isLeap y then 29 else 28)
  else if m = 4 ∨ m = 6 ∨ m = 9 ∨ m = 11 then 30
  else 31

/-- A 1-2 digit numeric directive: try the two-digit reading first when
its value satisfies `ok2`, falling back to the one-digit reading
(admissible when `ok1` holds) if the rest of the format fails. -/
def parseNum2or1 {α : Type} (ok2 ok1 : Nat → Bool) (cs : List Char)
    (k : Nat → List Char → Option α) : Option α :=
  match cs with
  | c1 :: c2 :: rest =>
    if c1.isDigit then
      let v2 := digitVal c1 * 10 + digitVal c2
      let two : Option α := if c2.isDigit && ok2 v2 then k v2 rest else none
      match two with
      | some r => some r
      | none => if ok1 (digitVal c1) then k (digitVal c1) (c2 :: rest) else none
    else none
  | [c1] => if c1.isDigit && ok1 (digitVal c1) then k (digitVal c1) [] else none
  | [] => none

/-- `%Y`: exactly four digits. -/
def parseYear4 {α : Type} (cs : List Char) (k : Nat → List Char → Option α) :
    Option α :=
  match cs with
  | a :: b :: c :: d :: rest =>
    if a.isDigit && b.isDigit && c.isDigit && d.isDigit then
      k (digitVal a * 1000 + digitVal b * 100 + digitVal c * 10 + digitVal d) rest
    else none
  | _ => none

/-- A literal character of the format string. -/
def parseLit {α : Type} (ch : Char) (cs : List Char)
    (k : List Char → Option α) : Option α :=
  match cs with
  | c :: rest => if c = ch then k rest else none
  | [] => none

/-- Whitespace in the format: `\s+` (at least one, then all). -/
def parseWs1 {α : Type} (cs : List Char) (k : List Char → Option α) :
    Option α :=
  match cs with
  | c :: rest =>
    if c.isWhitespace then k (rest.dropWhile Char.isWhitespace) else none
  | [] => none

/-- `%p`: `AM` or `PM`, case-insensitive; yields `true` for PM. -/
def parseAmPm {α : Type} (cs : List Char) (k : Bool → List Char → Option α) :
    Option α :=
  match cs with
  | a :: m :: rest =>
    if m.toLower = 'm' then
      if a.toLower = 'a' then k false rest
      else if a.toLower = 'p' then k true rest
      else none
    else none
  | _ => none

/-- Admissible two-digit values for `%d` (regex `3[01]|[12]\d|0[1-9]`). -/
def dayOk2 (v : Nat) : Bool := decide (1 ≤ v) && decide (v ≤ 31)

/-- Admissible two-digit values for `%m` and `%I` (`1[0-2]|0[1-9]`). -/
def monOk2 (v : Nat) : Bool := decide (1 ≤ v) && decide (v ≤ 12)

/-- Admissible two-digit values for `%M` (`[0-5]\d`). -/
def minOk2 (v : Nat) : Bool := decide (v ≤ 59)

/-- Admissible one-digit values for `%d`, `%m`, `%I` (`[1-9]`). -/
def oneLe (v : Nat) : Bool := decide (1 ≤ v)

/-- `datetime.strptime(s, '%d-%m-%Y')`: on success the day, month and
year, with the whole input consumed and `datetime`'s own range checks
applied. -/
def strptime_dmY (s : String) : Option (Nat × Nat × Nat) :=
  parseNum2or1 dayOk2 oneLe s.data (fun day r1 =>
  parseLit '-' r1 (fun r2 =>
  parseNum2or1 monOk2 oneLe r2 (fun mon r3 =>
  parseLit '-' r3 (fun r4 =>
  parseYear4 r4 (fun year r5 =>
    match r5 with
    | [] =>
      if decide (1 ≤ year) && decide (day ≤ daysInMonth mon year) then
        some (day, mon, year)
      else none
    | _ => none)))))

/-- A naive local datetime as `strptime` produces it (hour already
converted to 24h form from `%I`/`%p`). -/
structure NaiveDT where
  year : Nat
  month : Nat
  day : Nat
  hour : Nat
  minute : Nat
deriving DecidableEq

/-- 12-hour clock to 24-hour clock, as `_strptime` does it. -/
def to24 (hr : Nat) (pm : Bool) : Nat :=
  if pm then (if hr = 12 then 12 else hr + 12)
  else (if hr = 12 then 0 else hr)

/-- `datetime.strptime(s, '%d-%m-%Y %I:%M %p')`. -/
def strptime_dmY_IMp (s : String) : Option NaiveDT :=
  parseNum2or1 dayOk2 oneLe s.data (fun day r1 =>
  parseLit '-' r1 (fun r2 =>
  parseNum2or1 monOk2 oneLe r2 (fun mon r3 =>
  parseLit '-' r3 (fun r4 =>
  parseYear4 r4 (fun year r5 =>
  parseWs1 r5 (fun r6 =>
  parseNum2or1 monOk2 oneLe r6 (fun hr r7 =>
  parseLit ':' r7 (fun r8 =>
  parseNum2or1 minOk2 (fun _ => true) r8 (fun minute r9 =>
  parseWs1 r9 (fun r10 =>
  parseAmPm r10 (fun pm r11 =>
    match r11 with
    | [] =>
      if decide (1 ≤ year) && decide (day ≤ daysInMonth mon year) then
        some ⟨year, mon, day, to24 hr pm, minute⟩
      else none
    | _ => none)))))))))))

/-- `parse_query` (src/search.py:232-262): apply the pattern with
`re.match`, then validate the captured date strings with
`strptime('%d-%m-%Y')`; any failure yields `None`. -/
def parse_query (query : String) :
    Option (String × String × String × Option String) :=
  match re_match query.data with
  | none => none
  | some (w1, w2, d1, ret) =>
    match strptime_dmY (String.mk d1) with
    | none => none
    | some _ =>
      match ret with
      | none => some (String.mk w1, String.mk w2, String.mk d1, none)
      | some d2 =>
        match strptime_dmY (String.mk d2) with
        | none => none
        | some _ =>
          some (String.mk w1, String.mk w2, String.mk d1, some (String.mk d2))

/-! ## Timezone Resolver

`get_timezone_from_airport` (src/search.py:37-55).  The geocoder
(`geopy`'s `Nominatim.geocode`) and the coordinate-to-zone lookup
(`timezonefinder`'s `TimezoneFinder.timezone_at`) are external services,
passed in as functions.  Coordinates are modelled abstractly as a pair
of integers (the source only pipes them from one service to the other).
The source has no try/except: an exception raised by the geocoder
propagates to the caller, which the `Except` result records. -/

/-- Outcome of `Nominatim.geocode`: a location, `None`, or a raised
network/service exception. -/
inductive GeoResult where
  | found (lat lon : Int)
  | notFound
  | error
deriving DecidableEq

/-- `get_timezone_from_airport` (src/search.py:37-55): geocode the name;
if a location was found, return `timezone_at(lng=…, lat=…)` as-is
(possibly `None`); if no location, return `'UTC'`; a geocoder exception
propagates (`Except.error`). -/
def get_timezone_from_airport (geocode : String → GeoResult)
    (timezone_at : Int → Int → Option String) (airport : String) :
    Except Unit (Option String) :=
  match geocode airport with
  | .error => .error ()
  | .notFound => .ok (some "UTC")
  | .found lat lon => .ok (timezone_at lon lat)

/-! ## Time Normalizer

`convert_to_utc_epoch` (src/search.py:58-86).  The pytz zone database is
external: `tzdb` maps a zone name to the offset function pytz's
`localize` applies (UTC offset in seconds as a function of the naive
local datetime, DST included); `none` models `pytz.UnknownTimeZoneError`.
`localize → astimezone(utc) → timestamp()` equals the wall-clock seconds
since 1970-01-01 minus that offset.  The source wraps everything in
`try/except` and returns `0` on any failure. -/

/-- Days from 1970-01-01 to year/month/day of the proleptic Gregorian
calendar (standard civil-from-days algorithm; all intermediate values
are nonnegative for year ≥ 1, so truncated division is exact). -/
def daysFromCivil (y m d : Nat) : Int :=
  let yAdj : Int := if m ≤ 2 then (y : Int) - 1 else (y : Int)
  let era : Int := yAdj / 400
  let yoe : Int := yAdj - era * 400
  let mp : Int := ((m : Int) + 9) % 12
  let doy : Int := (153 * mp + 2) / 5 + (d : Int) - 1
  let doe : Int := yoe * 365 + yoe / 4 - yoe / 100 + doy
  era * 146097 + doe - 719468

/-- Seconds since the epoch of a wall-clock datetime read as UTC. -/
def civilToEpoch (dt : NaiveDT) : Int :=
  daysFromCivil dt.year dt.month dt.day * 86400 +
    (dt.hour : Int) * 3600 + (dt.minute : Int) * 60

/-- `convert_to_utc_epoch` (src/search.py:58-86): parse
`'{date_str} {time_str}'` with `'%d-%m-%Y %I:%M %p'`, localize in the
named zone, convert to UTC, return the integer epoch; any exception
(parse failure, unknown zone) is caught and `0` returned. -/
def convert_to_utc_epoch (tzdb : String → Option (NaiveDT → Int))
    (date_str time_str timezone : String) : Int :=
  match strptime_dmY_IMp (date_str ++ " " ++ time_str) with
  | none => 0
  | some dt =>
    match tzdb timezone with
    | none => 0
    | some off => civilToEpoch dt - off dt

/-! ## Result Extractor

`scrape_flight_details` (src/search.py:89-132).  A DOM offer node
(`.pIav2d`) is modelled by the four sub-element lookups the source
performs: each field holds `some text` when `query_selector` finds the
sub-element, `none` when it returns `None`.  The per-flight `try/except`
in the source guards playwright I/O errors; on the data model the four
lookups and `inner_text` reads are total, so the except branch is
unreachable and each node yields exactly one record. -/

/-- The `'time'` entry of a scraped record: a Unix epoch, or the string
`"N/A"` the source stores when the time element is absent. -/
inductive TimeVal where
  | epoch (n : Int)
  | na
deriving DecidableEq

/-- An offer node as the extractor reads it. -/
structure FlightNode where
  time_el : Option String
  airline_el : Option String
  duration_el : Option String
  price_el : Option String
deriving DecidableEq

/-- One scraped record (the dict built at src/search.py:122-127). -/
structure FlightDetail where
  time : TimeVal
  airline : String
  duration : String
  price : String
deriving DecidableEq

/-- The body of the extraction loop for one offer node
(src/search.py:105-127). -/
def scrape_one (tzdb : String → Option (NaiveDT → Int))
    (flight_date timezone : String) (f : FlightNode) : FlightDetail :=
  let time_str := f.time_el.getD "N/A"
  let airline := f.airline_el.getD "N/A"
  let duration := f.duration_el.getD "N/A"
  let price := f.price_el.getD "N/A"
  let t : TimeVal :=
    if time_str ≠ "N/A" then
      .epoch (convert_to_utc_epoch tzdb flight_date time_str timezone)
    else .na
  ⟨t, airline, duration, price⟩

/-- `scrape_flight_details` (src/search.py:89-132): one record per
visible offer node, in DOM order. -/
def scrape_flight_details (tzdb : String → Option (NaiveDT → Int))
    (flights : List FlightNode) (flight_date timezone : String) :
    List FlightDetail :=
  flights.map (scrape_one tzdb flight_date timezone)

/-! ## Pagination Controller

The drill-down loop of `search_and_scrape_flights`
(src/search.py:205-229).  The loop runs `for index in
range(len(departing_flights))` — one iteration per outbound offer
initially visible.  What the environment does in iteration `index`
(`departing_flights[index].click()`, the wait for `[jsname="Ud7fr"]`,
the nested scrape) is modelled by an `IterOutcome`: `ok rs` when the
click and wait succeed and the return view scrapes to `rs`, or a raised
`TimeoutError` / other exception (stale-list `IndexError`, click
failure).  Both except branches (src/search.py:224-227) only print, so a
failed iteration appends nothing and the loop continues. -/

/-- What the page does during one drill-down iteration. -/
inductive IterOutcome where
  | ok (returns : List FlightDetail)
  | failTimeout
  | failLookup
deriving DecidableEq

/-- The returns-collection the loop assembles: the `ok` payloads in
order; failed iterations append nothing (src/search.py:210-227). -/
def paginate (outcomes : List IterOutcome) : List (List FlightDetail) :=
  outcomes.filterMap (fun o =>
    match o with
    | .ok rs => some rs
    | .failTimeout => none
    | .failLookup => none)

/-- Number of drill-down iterations executed: the loop is guarded by
`if return_date:` (src/search.py:207), so zero for a one-way search,
else one per initially visible outbound offer. -/
def drillIterations (return_date : Option String) (numOutbound : Nat) : Nat :=
  match return_date with
  | none => 0
  | some _ => numOutbound

/-- The value returned by `search_and_scrape_flights`
(src/search.py:135-229): the scraped outbound records paired with the
returns-collection (empty when one-way, the pagination result when
round-trip).  The UI-driving steps (filling fields, submitting) have no
effect on the returned data and are abstracted into the inputs:
`departing` is the outbound scrape, `outcomes` the behaviour of the
environment over the drill-down iterations. -/
def search_and_scrape_flights (departing : List FlightDetail)
    (return_date : Option String) (outcomes : List IterOutcome) :
    List FlightDetail × List (List FlightDetail) :=
  (departing,
    match return_date with
    | none => []
    | some _ => paginate outcomes)

/-! ## Session Orchestrator

One iteration of the REPL loop in `main` (src/search.py:281-309).  The
loop state is the set of local variables the printing block reads:
`None` models a fresh session where `departing_flight_data`,
`returning_flight_data` and `return_date` are still unbound.  After the
(unconditional) printing block, the loop continues; an unhandled
`NameError`/`IndexError` in it terminates the session. -/

/-- The bindings of `departing_flight_data`, `returning_flight_data`
and `return_date`, or `none` when not yet assigned. -/
structure SessionState where
  results :
    Option (List FlightDetail × List (List FlightDetail) × Option String)
deriving DecidableEq

/-- How one trip around the `while True:` loop ends. -/
inductive LoopStep where
  | exited
  | continued (st : SessionState)
  | crashed
deriving DecidableEq

/-- Whether the printing block (src/search.py:300-307) raises: it runs
`for index in range(len(departing_flight_data))` and, when
`return_date` is set, indexes `returning_flight_data[index]`, an
`IndexError` when that list is shorter. -/
def printCrashes
    (res : List FlightDetail × List (List FlightDetail) × Option String) :
    Bool :=
  res.2.2.isSome && decide (res.2.1.length < res.1.length)

/-- One iteration of `main`'s REPL loop (src/search.py:281-309):
read a query; `exit` breaks; a parsed query runs the search and
rebinds the result variables; a failed parse prints the re-prompt
message; either way the printing block then runs on whatever the
variables currently hold — raising `NameError` on a fresh session. -/
def main_iteration
    (runSearch : String → String → String → Option String →
      List FlightDetail × List (List FlightDetail))
    (st : SessionState) (query : String) : LoopStep :=
  if query = "exit" then .exited
  else
    match parse_query query with
    | some (from_city, to_city, departure_date, return_date) =>
      let r := runSearch from_city to_city departure_date return_date
      if printCrashes (r.1, r.2, return_date) then .crashed
      else .continued ⟨some (r.1, r.2, return_date)⟩
    | none =>
      match st.results with
      | none => .crashed
      | some res => if printCrashes res then .crashed else .continued st

/-! ## Concrete instances used by witnesses and counterexamples -/

/-- A zone table holding the claim C4 scenario: `America/New_York`
resolving to UTC−5 (standard time, valid for December dates). -/
def tzdbNY : String → Option (NaiveDT → Int) :=
  fun z => if z = "America/New_York" then some (fun _ => -18000) else none

/-- Sample outbound offer. -/
def offA : FlightDetail := ⟨.na, "AA", "6h 15m", "$100"⟩

/-- Sample outbound offer. -/
def offB : FlightDetail := ⟨.na, "BA", "7h 05m", "$120"⟩

/-- Sample return offer. -/
def retR : FlightDetail := ⟨.na, "RR", "5h 55m", "$80"⟩

/-- The day number a `DD-MM-YYYY` string denotes, for comparing dates:
the `strptime` fields fed through `daysFromCivil` (`0` when the string
does not parse). -/
def dmyDays (s : String) : Int :=
  match strptime_dmY s with
  | some (d, m, y) => daysFromCivil y m d
  | none => 0

/-! ## The query grammar, spec-side

Vocabulary for stating the Query Parser claims: a grammar token, the
written form of a `DD-MM-YYYY` date, and calendar validity as
`datetime` defines it (day within the month, month 1-12, year 1-9999). -/

/-- A grammar token: nonempty and all word characters. -/
def Token (w : List Char) : Prop := w ≠ [] ∧ ∀ c ∈ w, isWordChar c = true

instance (w : List Char) : Decidable (Token w) := by
  unfold Token; infer_instance

/-- The ASCII digit character of `k` (for `k ≤ 9`). -/
def digitChar (k : Nat) : Char := Char.ofNat (48 + k)

/-- `n` written with two digits (for `n ≤ 99`). -/
def twoDigitChars (n : Nat) : List Char := [digitChar (n / 10), digitChar (n % 10)]

/-- `n` written with four digits (for `n ≤ 9999`). -/
def fourDigitChars (n : Nat) : List Char :=
  [digitChar (n / 1000), digitChar (n / 100 % 10), digitChar (n / 10 % 10),
   digitChar (n % 10)]

/-- The characters of a date written as `DD-MM-YYYY`. -/
def dateChars (d m y : Nat) : List Char :=
  twoDigitChars d ++ '-' :: (twoDigitChars m ++ '-' :: fourDigitChars y)

/-- Calendar validity of day/month/year, exactly the ranges `datetime`
accepts. -/
def ValidDMY (d m y : Nat) : Prop :=
  1 ≤ d ∧ d ≤ daysInMonth m y ∧ 1 ≤ m ∧ m ≤ 12 ∧ 1 ≤ y ∧ y ≤ 9999

instance (d m y : Nat) : Decidable (ValidDMY d m y) := by
  unfold ValidDMY; infer_instance

/-- Whether a character list is the written form `DD-MM-YYYY`
(ten characters, digits and dashes in place). -/
def isDateShape (ds : List Char) : Bool :=
  match ds with
  | [a, b, '-', c, d, '-', e, f, g, h] =>
    a.isDigit && b.isDigit && c.isDigit && d.isDigit &&
      e.isDigit && f.isDigit && g.isDigit && h.isDigit
  | _ => false

/-- The day/month/year values written in a `DD-MM-YYYY` character list
(zero when not of that shape). -/
def dateVals (ds : List Char) : Nat × Nat × Nat :=
  match ds with
  | [a, b, '-', c, d, '-', e, f, g, h] =>
    (digitVal a * 10 + digitVal b, digitVal c * 10 + digitVal d,
     digitVal e * 1000 + digitVal f * 100 + digitVal g * 10 + digitVal h)
  | _ => (0, 0, 0)

/-- A query line of the grammar
`<origin> <destination> <DD-MM-YYYY> [DD-MM-YYYY]`. -/
def grammarString (w1 w2 d1 : List Char) (ret : Option (List Char)) : String :=
  String.mk (w1 ++ ' ' :: (w2 ++ ' ' :: (d1 ++
    (match ret with | some d2 => ' ' :: d2 | none => []))))

/-! ## Character-level lemmas -/

theorem isDigit_toNat {c : Char} (h : c.isDigit = true) :
    48 ≤ c.toNat ∧ c.toNat ≤ 57 := by
  have h48 : (UInt32.toBitVec 48).toNat = 48 := rfl
  have h57 : (UInt32.toBitVec 57).toNat = 57 := rfl
  simp only [Char.isDigit, Bool.and_eq_true, decide_eq_true_eq, Char.le_def,
    UInt32.le_def, BitVec.le_def, h48, h57] at h
  simp only [Char.toNat, UInt32.toNat]
  omega

theorem digitVal_le_nine {c : Char} (h : c.isDigit = true) : digitVal c ≤ 9 := by
  have := isDigit_toNat h
  simp only [digitVal]
  omega

theorem isDigit_ne_dash {c : Char} (h : c.isDigit = true) : ¬(c = '-') := by
  rintro rfl
  simp [Char.isDigit] at h

theorem digitChar_isDigit {k : Nat} (h : k ≤ 9) :
    (digitChar k).isDigit = true := by
  interval_cases k <;> decide

theorem digitVal_digitChar {k : Nat} (h : k ≤ 9) : digitVal (digitChar k) = k := by
  interval_cases k <;> decide

theorem daysInMonth_le_31 (m y : Nat) : daysInMonth m y ≤ 31 := by
  unfold daysInMonth
  split
  · split <;> omega
  · split <;> omega

/-! ## Lemmas about the pattern matcher -/

theorem splitWord_append_space (w : List Char)
    (hw : ∀ c ∈ w, isWordChar c = true) (rest : List Char) :
    splitWord (w ++ ' ' :: rest) = (w, ' ' :: rest) := by
  induction w with
  | nil =>
    have hsp : isWordChar ' ' = false := by decide
    simp [splitWord, hsp]
  | cons c w ih =>
    have hc : isWordChar c = true := hw c (by simp)
    simp [splitWord, hc, ih (fun x hx => hw x (by simp [hx]))]

theorem splitWord_append (cs : List Char) :
    (splitWord cs).1 ++ (splitWord cs).2 = cs := by
  induction cs with
  | nil => rfl
  | cons c rest ih =>
    by_cases hc : isWordChar c = true
    · simp [splitWord, hc, ih]
    · rw [Bool.not_eq_true] at hc
      simp [splitWord, hc]

theorem splitWord_mem (cs : List Char) :
    ∀ c ∈ (splitWord cs).1, isWordChar c = true := by
  induction cs with
  | nil => simp [splitWord]
  | cons c rest ih =>
    by_cases hc : isWordChar c = true
    · simp only [splitWord, hc, if_true]
      intro x hx
      rcases List.mem_cons.mp hx with h | h
      · exact h ▸ hc
      · exact ih x h
    · rw [Bool.not_eq_true] at hc
      simp [splitWord, hc]

theorem matchDate_shape (a b c d e f g h : Char) (rest : List Char)
    (ha : a.isDigit = true) (hb : b.isDigit = true) (hc : c.isDigit = true)
    (hd : d.isDigit = true) (he : e.isDigit = true) (hf : f.isDigit = true)
    (hg : g.isDigit = true) (hh : h.isDigit = true) :
    matchDate (a :: b :: '-' :: c :: d :: '-' :: e :: f :: g :: h :: rest) =
      some ([a, b, '-', c, d, '-', e, f, g, h], rest) := by
  simp [matchDate, ha, hb, hc, hd, he, hf, hg, hh]

theorem matchDate_inv {cs ds rest : List Char}
    (h : matchDate cs = some (ds, rest)) :
    cs = ds ++ rest ∧ isDateShape ds = true := by
  unfold matchDate at h
  split at h
  · split at h
    · rename_i hcond
      simp only [Option.some.injEq, Prod.mk.injEq] at h
      obtain ⟨h1, h2⟩ := h
      subst h1; subst h2
      refine ⟨by simp, ?_⟩
      simp only [isDateShape]
      exact hcond
    · exact absurd h (by simp)
  · exact absurd h (by simp)

theorem isDateShape_inv {ds : List Char} (h : isDateShape ds = true) :
    ∃ a b c d e f g h', ds = [a, b, '-', c, d, '-', e, f, g, h'] ∧
      a.isDigit = true ∧ b.isDigit = true ∧ c.isDigit = true ∧
      d.isDigit = true ∧ e.isDigit = true ∧ f.isDigit = true ∧
      g.isDigit = true ∧ h'.isDigit = true := by
  unfold isDateShape at h
  split at h
  · simp only [Bool.and_eq_true] at h
    exact ⟨_, _, _, _, _, _, _, _, rfl, h.1.1.1.1.1.1.1, h.1.1.1.1.1.1.2,
      h.1.1.1.1.1.2, h.1.1.1.1.2, h.1.1.1.2, h.1.1.2, h.1.2, h.2⟩
  · exact absurd h (by simp)

/-! ## Lemmas about `strptime('%d-%m-%Y')` on a `DD-MM-YYYY` shape -/

theorem strptime_dmY_shape_some (a b c d e f g h : Char)
    (ha : a.isDigit = true) (hb : b.isDigit = true) (hc : c.isDigit = true)
    (hd : d.isDigit = true) (he : e.isDigit = true) (hf : f.isDigit = true)
    (hg : g.isDigit = true) (hh : h.isDigit = true)
    (hv : ValidDMY (digitVal a * 10 + digitVal b) (digitVal c * 10 + digitVal d)
      (digitVal e * 1000 + digitVal f * 100 + digitVal g * 10 + digitVal h)) :
    strptime_dmY (String.mk [a, b, '-', c, d, '-', e, f, g, h]) =
      some (digitVal a * 10 + digitVal b, digitVal c * 10 + digitVal d,
            digitVal e * 1000 + digitVal f * 100 + digitVal g * 10 + digitVal h) := by
  obtain ⟨h1, h2, h3, h4, h5, h6⟩ := hv
  have hdd31 : digitVal a * 10 + digitVal b ≤ 31 :=
    le_trans h2 (daysInMonth_le_31 _ _)
  have hday : dayOk2 (digitVal a * 10 + digitVal b) = true := by
    simp only [dayOk2, Bool.and_eq_true, decide_eq_true_eq]
    exact ⟨h1, hdd31⟩
  have hmon : monOk2 (digitVal c * 10 + digitVal d) = true := by
    simp only [monOk2, Bool.and_eq_true, decide_eq_true_eq]
    exact ⟨h3, h4⟩
  have hy : decide (1 ≤ digitVal e * 1000 + digitVal f * 100 +
      digitVal g * 10 + digitVal h) = true := decide_eq_true h5
  have hfin : decide (digitVal a * 10 + digitVal b ≤
      daysInMonth (digitVal c * 10 + digitVal d)
        (digitVal e * 1000 + digitVal f * 100 + digitVal g * 10 + digitVal h)) =
      true := decide_eq_true h2
  unfold strptime_dmY
  rw [show (String.mk [a, b, '-', c, d, '-', e, f, g, h]).data =
    [a, b, '-', c, d, '-', e, f, g, h] from rfl]
  simp only [parseNum2or1, parseLit, parseYear4, ha, hb, hc, hd, he, hf, hg, hh,
    hday, hmon, hy, hfin, if_true, Bool.and_self, Bool.true_and, Bool.and_true,
    reduceIte]

theorem strptime_dmY_shape_inv (a b c d e f g h : Char) (v : Nat × Nat × Nat)
    (ha : a.isDigit = true) (hb : b.isDigit = true) (hc : c.isDigit = true)
    (hd : d.isDigit = true) (he : e.isDigit = true) (hf : f.isDigit = true)
    (hg : g.isDigit = true) (hh : h.isDigit = true)
    (hsome : strptime_dmY (String.mk [a, b, '-', c, d, '-', e, f, g, h]) = some v) :
    v = (digitVal a * 10 + digitVal b, digitVal c * 10 + digitVal d,
         digitVal e * 1000 + digitVal f * 100 + digitVal g * 10 + digitVal h) ∧
      ValidDMY (digitVal a * 10 + digitVal b) (digitVal c * 10 + digitVal d)
        (digitVal e * 1000 + digitVal f * 100 + digitVal g * 10 + digitVal h) := by
  have hbd : (b = '-') = False := eq_false (isDigit_ne_dash hb)
  have hdd : (d = '-') = False := eq_false (isDigit_ne_dash hd)
  unfold strptime_dmY at hsome
  rw [show (String.mk [a, b, '-', c, d, '-', e, f, g, h]).data =
    [a, b, '-', c, d, '-', e, f, g, h] from rfl] at hsome
  by_cases hdOk : dayOk2 (digitVal a * 10 + digitVal b) = true
  · by_cases hmOk : monOk2 (digitVal c * 10 + digitVal d) = true
    · by_cases hyOk : 1 ≤ digitVal e * 1000 + digitVal f * 100 +
        digitVal g * 10 + digitVal h
      · by_cases hfin : digitVal a * 10 + digitVal b ≤
          daysInMonth (digitVal c * 10 + digitVal d)
            (digitVal e * 1000 + digitVal f * 100 + digitVal g * 10 + digitVal h)
        · simp only [parseNum2or1, parseLit, parseYear4, ha, hb, hc, hd, he, hf,
            hg, hh, hdOk, hmOk, decide_eq_true hyOk, decide_eq_true hfin,
            Bool.and_self, Bool.true_and, Bool.and_true, if_true, reduceIte]
            at hsome
          refine ⟨(Option.some.inj hsome).symm, ?_⟩
          simp only [dayOk2, monOk2, Bool.and_eq_true, decide_eq_true_eq]
            at hdOk hmOk
          refine ⟨hdOk.1, hfin, hmOk.1, hmOk.2, hyOk, ?_⟩
          have := digitVal_le_nine he
          have := digitVal_le_nine hf
          have := digitVal_le_nine hg
          have := digitVal_le_nine hh
          omega
        · simp [parseNum2or1, parseLit, parseYear4, ha, hb, hc, hd, he, hf,
            hg, hh, hdOk, hmOk, decide_eq_false hfin, hbd, hdd, ite_self]
            at hsome
      · simp [parseNum2or1, parseLit, parseYear4, ha, hb, hc, hd, he, hf,
          hg, hh, hdOk, hmOk, decide_eq_false hyOk, hbd, hdd, ite_self] at hsome
    · rw [Bool.not_eq_true] at hmOk
      simp [parseNum2or1, parseLit, parseYear4, ha, hb, hc, hd, he, hf,
        hg, hh, hdOk, hmOk, hbd, hdd, ite_self] at hsome
  · rw [Bool.not_eq_true] at hdOk
    simp [parseNum2or1, parseLit, parseYear4, ha, hb, hc, hd, he, hf,
      hg, hh, hdOk, hbd, hdd, ite_self] at hsome

theorem re_match_complete (w1 w2 d1 rest : List Char)
    (hw1 : Token w1) (hw2 : Token w2)
    (hd : matchDate (d1 ++ rest) = some (d1, rest)) :
    re_match (w1 ++ ' ' :: (w2 ++ ' ' :: (d1 ++ rest))) =
      some (w1, w2, d1, retOf rest) := by
  obtain ⟨hne1, hm1⟩ := hw1
  obtain ⟨hne2, hm2⟩ := hw2
  obtain ⟨c1, w1', rfl⟩ := List.exists_cons_of_ne_nil hne1
  obtain ⟨c2, w2', rfl⟩ := List.exists_cons_of_ne_nil hne2
  simp only [re_match, splitWord_append_space _ hm1,
    splitWord_append_space _ hm2, hd]

theorem re_match_sound {cs w1 w2 d1 : List Char} {ret : Option (List Char)}
    (h : re_match cs = some (w1, w2, d1, ret)) :
    (∃ rest, cs = w1 ++ ' ' :: (w2 ++ ' ' :: (d1 ++ rest)) ∧ ret = retOf rest) ∧
      Token w1 ∧ Token w2 ∧ isDateShape d1 = true := by
  unfold re_match at h
  split at h
  · exact absurd h (by simp)
  · rename_i x1 c1 w1' r1 heq1
    split at h
    · rename_i r2
      split at h
      · exact absurd h (by simp)
      · rename_i x2 c2 w2' r3 heq2
        split at h
        · rename_i r4
          split at h
          · exact absurd h (by simp)
          · rename_i x3 d1' r5 heqd
            simp only [Option.some.injEq, Prod.mk.injEq] at h
            obtain ⟨hA, hB, hC, hD⟩ := h
            subst hA; subst hB; subst hC; subst hD
            obtain ⟨hr4, hsh⟩ := matchDate_inv heqd
            have e1 : c1 :: (w1' ++ ' ' :: r2) = cs := by
              have t := splitWord_append cs
              rw [heq1] at t
              exact t
            have e2 : c2 :: (w2' ++ ' ' :: r4) = r2 := by
              have t := splitWord_append r2
              rw [heq2] at t
              exact t
            have m1 : ∀ c ∈ c1 :: w1', isWordChar c = true := by
              have t := splitWord_mem cs
              rw [heq1] at t
              exact t
            have m2 : ∀ c ∈ c2 :: w2', isWordChar c = true := by
              have t := splitWord_mem r2
              rw [heq2] at t
              exact t
            refine ⟨⟨r5, ?_, rfl⟩, ⟨by simp, m1⟩, ⟨by simp, m2⟩, hsh⟩
            rw [← e1, ← e2, ← hr4]
            rfl
        · exact absurd h (by simp)
    · exact absurd h (by simp)

theorem strptime_dmY_dateChars (d m y : Nat) (hv : ValidDMY d m y) :
    strptime_dmY (String.mk (dateChars d m y)) = some (d, m, y) := by
  have hd31 : d ≤ 31 := le_trans hv.2.1 (daysInMonth_le_31 _ _)
  have hm12 : m ≤ 12 := hv.2.2.2.1
  have hy9999 : y ≤ 9999 := hv.2.2.2.2.2
  have E : digitVal (digitChar (d / 10)) * 10 + digitVal (digitChar (d % 10)) =
      d := by
    rw [digitVal_digitChar (by omega), digitVal_digitChar (by omega)]
    omega
  have F : digitVal (digitChar (m / 10)) * 10 + digitVal (digitChar (m % 10)) =
      m := by
    rw [digitVal_digitChar (by omega), digitVal_digitChar (by omega)]
    omega
  have G : digitVal (digitChar (y / 1000)) * 1000 +
      digitVal (digitChar (y / 100 % 10)) * 100 +
      digitVal (digitChar (y / 10 % 10)) * 10 +
      digitVal (digitChar (y % 10)) = y := by
    rw [digitVal_digitChar (by omega), digitVal_digitChar (by omega),
      digitVal_digitChar (by omega), digitVal_digitChar (by omega)]
    omega
  have key := strptime_dmY_shape_some (digitChar (d / 10)) (digitChar (d % 10))
    (digitChar (m / 10)) (digitChar (m % 10)) (digitChar (y / 1000))
    (digitChar (y / 100 % 10)) (digitChar (y / 10 % 10)) (digitChar (y % 10))
    (digitChar_isDigit (by omega)) (digitChar_isDigit (by omega))
    (digitChar_isDigit (by omega)) (digitChar_isDigit (by omega))
    (digitChar_isDigit (by omega)) (digitChar_isDigit (by omega))
    (digitChar_isDigit (by omega)) (digitChar_isDigit (by omega))
    (by rw [E, F, G]; exact hv)
  rw [E, F, G] at key
  exact key

theorem parse_query_oneway (w1 w2 : List Char) (hw1 : Token w1) (hw2 : Token w2)
    (d m y : Nat) (hv : ValidDMY d m y) :
    parse_query (grammarString w1 w2 (dateChars d m y) none) =
      some (String.mk w1, String.mk w2, String.mk (dateChars d m y), none) := by
  have hd31 : d ≤ 31 := le_trans hv.2.1 (daysInMonth_le_31 _ _)
  have hm12 : m ≤ 12 := hv.2.2.2.1
  have hy9999 : y ≤ 9999 := hv.2.2.2.2.2
  have hmd : matchDate (dateChars d m y ++ []) = some (dateChars d m y, []) :=
    matchDate_shape (digitChar (d / 10)) (digitChar (d % 10))
      (digitChar (m / 10)) (digitChar (m % 10)) (digitChar (y / 1000))
      (digitChar (y / 100 % 10)) (digitChar (y / 10 % 10)) (digitChar (y % 10)) []
      (digitChar_isDigit (by omega)) (digitChar_isDigit (by omega))
      (digitChar_isDigit (by omega)) (digitChar_isDigit (by omega))
      (digitChar_isDigit (by omega)) (digitChar_isDigit (by omega))
      (digitChar_isDigit (by omega)) (digitChar_isDigit (by omega))
  have hre := re_match_complete w1 w2 (dateChars d m y) [] hw1 hw2 hmd
  simp only [parse_query, grammarString, hre, strptime_dmY_dateChars d m y hv,
    retOf]

theorem parse_query_roundtrip (w1 w2 : List Char) (hw1 : Token w1)
    (hw2 : Token w2) (d1 m1 y1 d2 m2 y2 : Nat) (hv1 : ValidDMY d1 m1 y1)
    (hv2 : ValidDMY d2 m2 y2) :
    parse_query (grammarString w1 w2 (dateChars d1 m1 y1)
        (some (dateChars d2 m2 y2))) =
      some (String.mk w1, String.mk w2, String.mk (dateChars d1 m1 y1),
        some (String.mk (dateChars d2 m2 y2))) := by
  have h1d31 : d1 ≤ 31 := le_trans hv1.2.1 (daysInMonth_le_31 _ _)
  have h1m12 : m1 ≤ 12 := hv1.2.2.2.1
  have h1y : y1 ≤ 9999 := hv1.2.2.2.2.2
  have h2d31 : d2 ≤ 31 := le_trans hv2.2.1 (daysInMonth_le_31 _ _)
  have h2m12 : m2 ≤ 12 := hv2.2.2.2.1
  have h2y : y2 ≤ 9999 := hv2.2.2.2.2.2
  have hmd1 : matchDate (dateChars d1 m1 y1 ++ (' ' :: dateChars d2 m2 y2)) =
      some (dateChars d1 m1 y1, ' ' :: dateChars d2 m2 y2) :=
    matchDate_shape (digitChar (d1 / 10)) (digitChar (d1 % 10))
      (digitChar (m1 / 10)) (digitChar (m1 % 10)) (digitChar (y1 / 1000))
      (digitChar (y1 / 100 % 10)) (digitChar (y1 / 10 % 10))
      (digitChar (y1 % 10)) (' ' :: dateChars d2 m2 y2)
      (digitChar_isDigit (by omega)) (digitChar_isDigit (by omega))
      (digitChar_isDigit (by omega)) (digitChar_isDigit (by omega))
      (digitChar_isDigit (by omega)) (digitChar_isDigit (by omega))
      (digitChar_isDigit (by omega)) (digitChar_isDigit (by omega))
  have hmd2 : matchDate (dateChars d2 m2 y2 ++ []) =
      some (dateChars d2 m2 y2, []) :=
    matchDate_shape (digitChar (d2 / 10)) (digitChar (d2 % 10))
      (digitChar (m2 / 10)) (digitChar (m2 % 10)) (digitChar (y2 / 1000))
      (digitChar (y2 / 100 % 10)) (digitChar (y2 / 10 % 10))
      (digitChar (y2 % 10)) []
      (digitChar_isDigit (by omega)) (digitChar_isDigit (by omega))
      (digitChar_isDigit (by omega)) (digitChar_isDigit (by omega))
      (digitChar_isDigit (by omega)) (digitChar_isDigit (by omega))
      (digitChar_isDigit (by omega)) (digitChar_isDigit (by omega))
  have hmd2' : matchDate (dateChars d2 m2 y2) = some (dateChars d2 m2 y2, []) := by
    rw [← List.append_nil (dateChars d2 m2 y2)] at hmd2 ⊢
    exact hmd2
  have hre := re_match_complete w1 w2 (dateChars d1 m1 y1)
    (' ' :: dateChars d2 m2 y2) hw1 hw2 hmd1
  simp only [parse_query, grammarString, hre, retOf, hmd2',
    strptime_dmY_dateChars d1 m1 y1 hv1, strptime_dmY_dateChars d2 m2 y2 hv2]

theorem parse_query_invalid_dep (w1 w2 : List Char) (hw1 : Token w1)
    (hw2 : Token w2) (ds rest : List Char) (hsh : isDateShape ds = true)
    (hbad : ¬ ValidDMY (dateVals ds).1 (dateVals ds).2.1 (dateVals ds).2.2) :
    parse_query (String.mk (w1 ++ ' ' :: (w2 ++ ' ' :: (ds ++ rest)))) = none := by
  obtain ⟨a, b, c, d, e, f, g, h', rfl, ha, hb, hc, hd, he, hf, hg, hh⟩ :=
    isDateShape_inv hsh
  have hmd : matchDate ([a, b, '-', c, d, '-', e, f, g, h'] ++ rest) =
      some ([a, b, '-', c, d, '-', e, f, g, h'], rest) :=
    matchDate_shape a b c d e f g h' rest ha hb hc hd he hf hg hh
  have hre := re_match_complete w1 w2 [a, b, '-', c, d, '-', e, f, g, h'] rest
    hw1 hw2 hmd
  simp only [parse_query, hre]
  cases hs : strptime_dmY (String.mk [a, b, '-', c, d, '-', e, f, g, h']) with
  | none => rfl
  | some v =>
    exfalso
    have hinv := strptime_dmY_shape_inv a b c d e f g h' v
      ha hb hc hd he hf hg hh hs
    exact hbad (by simpa [dateVals] using hinv.2)

theorem retOf_some_inv {rest d2 : List Char} (h : retOf rest = some d2) :
    ∃ r6 tail, rest = ' ' :: r6 ∧ r6 = d2 ++ tail ∧ isDateShape d2 = true := by
  unfold retOf at h
  split at h
  · rename_i r6
    split at h
    · rename_i x d2' tail heq
      obtain rfl : d2' = d2 := Option.some.inj h
      obtain ⟨hr6, hsh⟩ := matchDate_inv heq
      exact ⟨r6, tail, rfl, hr6, hsh⟩
    · exact absurd h (by simp)
  · exact absurd h (by simp)

theorem parse_query_sound {q f t dep : String} {r : Option String}
    (h : parse_query q = some (f, t, dep, r)) :
    ∃ rest, q.data = f.data ++ ' ' :: (t.data ++ ' ' :: (dep.data ++ rest)) ∧
      Token f.data ∧ Token t.data ∧ isDateShape dep.data = true ∧
      ValidDMY (dateVals dep.data).1 (dateVals dep.data).2.1
        (dateVals dep.data).2.2 ∧
      ((r = none ∧ retOf rest = none) ∨
        (∃ d2, r = some d2 ∧ retOf rest = some d2.data ∧
          isDateShape d2.data = true ∧
          ValidDMY (dateVals d2.data).1 (dateVals d2.data).2.1
            (dateVals d2.data).2.2)) := by
  unfold parse_query at h
  split at h
  · exact absurd h (by simp)
  · rename_i x0 w1 w2 d1 ret heqre
    split at h
    · exact absurd h (by simp)
    · rename_i x1 v1 heqs1
      obtain ⟨⟨rest, hdec, hret⟩, htk1, htk2, hshape⟩ := re_match_sound heqre
      have hval1 : ValidDMY (dateVals d1).1 (dateVals d1).2.1
          (dateVals d1).2.2 := by
        obtain ⟨a, b, c, d, e, f', g, h8, hds, ha, hb, hc, hd', he, hf, hg, hh⟩ :=
          isDateShape_inv hshape
        subst hds
        have hinv := strptime_dmY_shape_inv a b c d e f' g h8 v1
          ha hb hc hd' he hf hg hh heqs1
        simpa [dateVals] using hinv.2
      split at h
      · -- group 4 absent: the query is one-way
        simp only [Option.some.injEq, Prod.mk.injEq] at h
        obtain ⟨hF, hT, hD, hR⟩ := h
        have ef : w1 = f.data := congrArg String.data hF
        have et : w2 = t.data := congrArg String.data hT
        have ed : d1 = dep.data := congrArg String.data hD
        simp only [ef, et, ed] at hdec htk1 htk2 hshape hval1 hret
        exact ⟨rest, hdec, htk1, htk2, hshape, hval1, Or.inl ⟨hR.symm, hret.symm⟩⟩
      · -- group 4 captured a return date
        rename_i ret0 d2
        split at h
        · exact absurd h (by simp)
        · rename_i x2 v2 heqs2
          simp only [Option.some.injEq, Prod.mk.injEq] at h
          obtain ⟨hF, hT, hD, hR⟩ := h
          have ef : w1 = f.data := congrArg String.data hF
          have et : w2 = t.data := congrArg String.data hT
          have ed : d1 = dep.data := congrArg String.data hD
          obtain ⟨r6, tail, hrestEq, hr6Eq, hsh2⟩ := retOf_some_inv hret.symm
          have hval2 : ValidDMY (dateVals d2).1 (dateVals d2).2.1
              (dateVals d2).2.2 := by
            obtain ⟨a, b, c, d, e, f', g, h8, hds, ha, hb, hc, hd', he, hf, hg, hh⟩ :=
              isDateShape_inv hsh2
            subst hds
            have hinv := strptime_dmY_shape_inv a b c d e f' g h8 v2
              ha hb hc hd' he hf hg hh heqs2
            simpa [dateVals] using hinv.2
          simp only [ef, et, ed] at hdec htk1 htk2 hshape hval1 hret
          exact ⟨rest, hdec, htk1, htk2, hshape, hval1,
            Or.inr ⟨String.mk d2, hR.symm, hret.symm, hsh2, hval2⟩⟩

/-! # Claims -/

/-- C7: for a one-way `SearchRequest` (`return_date` is `None`), the
drill-down loop is skipped entirely — zero iterations regardless of the
page's behaviour — and the returns-collection comes back empty. -/
theorem oneway_zero_drilldown (departing : List FlightDetail)
    (outcomes : List IterOutcome) :
    search_and_scrape_flights departing none outcomes = (departing, []) ∧
      drillIterations none outcomes.length = 0 :=
  ⟨rfl, rfl⟩

/-- C1 (evaluation at the failing input): with two outbound offers and a
wait-timeout in iteration 0, the loop appends nothing for the failed
iteration, so the returns-collection has 1 entry, not 2, and the entry
belonging to outbound offer 1 sits at index 0 — contrary to the claim
that index 0 would record an empty sequence and the collection keep 2
entries. -/
theorem paginate_drops_failed_iteration :
    search_and_scrape_flights [offA, offB] (some "05-12-2025")
        [IterOutcome.failTimeout, IterOutcome.ok [retR]] =
      ([offA, offB], [[retR]]) ∧
    paginate [IterOutcome.failTimeout, IterOutcome.ok [retR]] ≠
      [[], [retR]] :=
  ⟨rfl, by decide⟩

/-- C2 (counterexample): when geocoding finds a location but the
coordinate-to-timezone lookup fails, `get_timezone_from_airport` returns
the lookup's `None` instead of `'UTC'`; and when the geocoding service
raises, the exception propagates instead of any `'UTC'` fallback. -/
theorem timezone_fallback_counterexample :
    get_timezone_from_airport (fun _ => GeoResult.found 0 0)
        (fun _ _ => none) "Nowhere" = Except.ok none ∧
      (Except.ok none : Except Unit (Option String)) ≠
        Except.ok (some "UTC") ∧
      get_timezone_from_airport (fun _ => GeoResult.error)
        (fun _ _ => none) "Nowhere" = Except.error () := by
  refine ⟨rfl, fun h => ?_, rfl⟩
  injection h with h
  exact Option.noConfusion h

/-- C2 (amended): `get_timezone_from_airport` falls back to `'UTC'`
exactly when geocoding returns no match; when geocoding succeeds it
returns the coordinate-to-timezone lookup's result unchanged (`None`
included), and a geocoding-service exception propagates to the caller. -/
theorem timezone_resolver_cases (geocode : String → GeoResult)
    (timezone_at : Int → Int → Option String) (airport : String) :
    (geocode airport = .notFound →
      get_timezone_from_airport geocode timezone_at airport =
        .ok (some "UTC")) ∧
    (∀ lat lon, geocode airport = .found lat lon →
      get_timezone_from_airport geocode timezone_at airport =
        .ok (timezone_at lon lat)) ∧
    (geocode airport = .error →
      get_timezone_from_airport geocode timezone_at airport =
        .error ()) := by
  refine ⟨fun h => ?_, fun lat lon h => ?_, fun h => ?_⟩ <;>
    simp [get_timezone_from_airport, h]

/-- C2 (witness): the amended cases at concrete services — a no-match
geocoder yields `'UTC'`; a found location with a failed zone lookup
yields `None`. -/
theorem timezone_resolver_cases_witness :
    get_timezone_from_airport (fun _ => GeoResult.notFound)
        (fun _ _ => none) "JFK" = Except.ok (some "UTC") ∧
      get_timezone_from_airport (fun _ => GeoResult.found 0 0)
        (fun _ _ => none) "JFK" = Except.ok none :=
  ⟨(timezone_resolver_cases _ _ "JFK").1 rfl,
   (timezone_resolver_cases (fun _ => GeoResult.found 0 0) _ "JFK").2.1 0 0 rfl⟩

/-- C4: for any zone table resolving `America/New_York` to UTC−5
(−18000 s) at the naive instant 2025-12-01 10:30, the Time Normalizer
maps date `01-12-2025`, time `"10:30 AM"` to the epoch of
2025-12-01T15:30:00Z, namely 1764603000. -/
theorem convert_nyc_example (tzdb : String → Option (NaiveDT → Int))
    (off : NaiveDT → Int) (h1 : tzdb "America/New_York" = some off)
    (h2 : off ⟨2025, 12, 1, 10, 30⟩ = -18000) :
    convert_to_utc_epoch tzdb "01-12-2025" "10:30 AM" "America/New_York" =
        civilToEpoch ⟨2025, 12, 1, 15, 30⟩ ∧
      civilToEpoch ⟨2025, 12, 1, 15, 30⟩ = 1764603000 := by
  have hp : strptime_dmY_IMp ("01-12-2025" ++ " " ++ "10:30 AM") =
      some ⟨2025, 12, 1, 10, 30⟩ := by decide
  refine ⟨?_, by decide⟩
  simp only [convert_to_utc_epoch, hp, h1, h2]
  decide

/-- C4 (witness): the conversion evaluated against the concrete zone
table `tzdbNY`. -/
theorem convert_nyc_example_witness :
    convert_to_utc_epoch tzdbNY "01-12-2025" "10:30 AM"
      "America/New_York" = 1764603000 :=
  (convert_nyc_example tzdbNY (fun _ => -18000) (by simp [tzdbNY]) rfl).1.trans
    (convert_nyc_example tzdbNY (fun _ => -18000) (by simp [tzdbNY]) rfl).2

/-- C5 (counterexample): an unparseable time string does not yield the
data model's `None`/"unavailable" sentinel — the `except` branch of
`convert_to_utc_epoch` returns `0`, and the scraped record stores epoch
`0`, which is distinct from the absent-time sentinel. -/
theorem unparseable_time_counterexample :
    scrape_flight_details tzdbNY
        [⟨some "garbage", some "Delta", some "5h 30m", some "$300"⟩]
        "01-12-2025" "America/New_York" =
      [⟨TimeVal.epoch 0, "Delta", "5h 30m", "$300"⟩] ∧
    TimeVal.epoch 0 ≠ TimeVal.na := by
  exact ⟨by decide, by decide⟩

/-- C5 (amended): on any parse failure of the combined date/time string,
and likewise on an unknown timezone name, `convert_to_utc_epoch`
returns the sentinel `0` — no exception escapes (the embedding is a
total function mirroring the source's catch-all `except`). -/
theorem convert_failure_returns_zero (tzdb : String → Option (NaiveDT → Int))
    (date_str time_str timezone : String) :
    (strptime_dmY_IMp (date_str ++ " " ++ time_str) = none →
      convert_to_utc_epoch tzdb date_str time_str timezone = 0) ∧
    (tzdb timezone = none →
      convert_to_utc_epoch tzdb date_str time_str timezone = 0) := by
  constructor
  · intro h; simp [convert_to_utc_epoch, h]
  · intro h
    unfold convert_to_utc_epoch
    cases hs : strptime_dmY_IMp (date_str ++ " " ++ time_str) <;> simp [h]

/-- C5 (witness): the amended statement at the concrete unparseable
time string `"garbage"`. -/
theorem convert_failure_returns_zero_witness :
    convert_to_utc_epoch tzdbNY "01-12-2025" "garbage"
      "America/New_York" = 0 :=
  (convert_failure_returns_zero tzdbNY "01-12-2025" "garbage"
    "America/New_York").1 (by decide)

/-- C9 (evaluation at the failing input): on a fresh session (no search
has succeeded yet, the result variables are unbound), a query that fails
to parse sends `main`'s loop into the printing block, where reading
`departing_flight_data` raises `NameError` and terminates the session —
contrary to the claim that an invalid query never terminates it. -/
theorem invalid_query_crashes_fresh_session
    (runSearch : String → String → String → Option String →
      List FlightDetail × List (List FlightDetail)) :
    parse_query "hello" = none ∧
      main_iteration runSearch ⟨none⟩ "hello" = LoopStep.crashed := by
  have hp : parse_query "hello" = none := by decide
  refine ⟨hp, ?_⟩
  unfold main_iteration
  rw [if_neg (by decide), hp]

/-- C3: for every input of the grammar
`<origin> <destination> <DD-MM-YYYY> [DD-MM-YYYY]` with calendar-valid
dates, `parse_query` succeeds and returns the four fields exactly as
written (conjuncts 1 and 2); a date written in place but failing
calendar validation makes it return `None` (conjunct 3); and every
successful parse comes from an input that starts with the three (or
four) grammar tokens, with valid dates — so a string missing one of
the required tokens can never parse (conjunct 4).  The embedding is a
total function, so no input raises. -/
theorem query_parser_roundtrip_and_rejection :
    (∀ w1 w2 d m y, Token w1 → Token w2 → ValidDMY d m y →
      parse_query (grammarString w1 w2 (dateChars d m y) none) =
        some (String.mk w1, String.mk w2, String.mk (dateChars d m y), none)) ∧
    (∀ w1 w2 d1 m1 y1 d2 m2 y2, Token w1 → Token w2 → ValidDMY d1 m1 y1 →
      ValidDMY d2 m2 y2 →
      parse_query (grammarString w1 w2 (dateChars d1 m1 y1)
          (some (dateChars d2 m2 y2))) =
        some (String.mk w1, String.mk w2, String.mk (dateChars d1 m1 y1),
          some (String.mk (dateChars d2 m2 y2)))) ∧
    (∀ w1 w2 ds rest, Token w1 → Token w2 → isDateShape ds = true →
      ¬ ValidDMY (dateVals ds).1 (dateVals ds).2.1 (dateVals ds).2.2 →
      parse_query (String.mk (w1 ++ ' ' :: (w2 ++ ' ' :: (ds ++ rest)))) = none) ∧
    (∀ q f t dep r, parse_query q = some (f, t, dep, r) →
      ∃ rest, q.data = f.data ++ ' ' :: (t.data ++ ' ' :: (dep.data ++ rest)) ∧
        Token f.data ∧ Token t.data ∧ isDateShape dep.data = true ∧
        ValidDMY (dateVals dep.data).1 (dateVals dep.data).2.1
          (dateVals dep.data).2.2 ∧
        ((r = none ∧ retOf rest = none) ∨
          (∃ d2, r = some d2 ∧ retOf rest = some d2.data ∧
            isDateShape d2.data = true ∧
            ValidDMY (dateVals d2.data).1 (dateVals d2.data).2.1
              (dateVals d2.data).2.2))) :=
  ⟨fun w1 w2 d m y h1 h2 h3 => parse_query_oneway w1 w2 h1 h2 d m y h3,
   fun w1 w2 d1 m1 y1 d2 m2 y2 h1 h2 h3 h4 =>
     parse_query_roundtrip w1 w2 h1 h2 d1 m1 y1 d2 m2 y2 h3 h4,
   fun w1 w2 ds rest h1 h2 h3 h4 =>
     parse_query_invalid_dep w1 w2 h1 h2 ds rest h3 h4,
   fun _ _ _ _ _ h => parse_query_sound h⟩

/-- C3 (witness): the grammar and rejection statements at the concrete
queries `"NYC LON 01-12-2025"` (parses exactly) and
`"NYC LON 31-02-2025"` (rejected: February 31 fails calendar
validation). -/
theorem query_parser_roundtrip_and_rejection_witness :
    parse_query "NYC LON 01-12-2025" = some ("NYC", "LON", "01-12-2025", none) ∧
      parse_query "NYC LON 31-02-2025" = none := by
  constructor
  · have h := query_parser_roundtrip_and_rejection.1 "NYC".data "LON".data
      1 12 2025 (by decide) (by decide) (by decide)
    have e : grammarString "NYC".data "LON".data (dateChars 1 12 2025) none =
        "NYC LON 01-12-2025" := by decide
    rw [e] at h
    exact h.trans (by decide)
  · have h := query_parser_roundtrip_and_rejection.2.2.1 "NYC".data "LON".data
      "31-02-2025".data [] (by decide) (by decide) (by decide) (by decide)
    have e : String.mk ("NYC".data ++ ' ' :: ("LON".data ++ ' ' ::
        ("31-02-2025".data ++ []))) = "NYC LON 31-02-2025" := by decide
    rw [e] at h
    exact h

/-- C8 (counterexample): `parse_query` performs no ordering check
between the two dates — the query `"NYC LON 05-12-2025 01-12-2025"`,
whose return date is four days before its departure date, is accepted,
so the claimed invariant fails. -/
theorem return_before_departure_accepted_counterexample :
    parse_query "NYC LON 05-12-2025 01-12-2025" =
      some ("NYC", "LON", "05-12-2025", some "01-12-2025") ∧
    dmyDays "01-12-2025" < dmyDays "05-12-2025" := by
  exact ⟨by decide, by decide⟩

/-- C8 (amended): `parse_query` validates each date only for calendar
validity; it enforces no order between departure and return, so a
round-trip query is accepted even when the return date is strictly
earlier than the departure date. -/
theorem parse_query_no_date_ordering (w1 w2 : List Char) (hw1 : Token w1)
    (hw2 : Token w2) (d1 m1 y1 d2 m2 y2 : Nat) (hv1 : ValidDMY d1 m1 y1)
    (hv2 : ValidDMY d2 m2 y2)
    (hlt : daysFromCivil y2 m2 d2 < daysFromCivil y1 m1 d1) :
    parse_query (grammarString w1 w2 (dateChars d1 m1 y1)
        (some (dateChars d2 m2 y2))) =
      some (String.mk w1, String.mk w2, String.mk (dateChars d1 m1 y1),
        some (String.mk (dateChars d2 m2 y2))) :=
  parse_query_roundtrip w1 w2 hw1 hw2 d1 m1 y1 d2 m2 y2 hv1 hv2

/-- C8 (witness): the amended statement at the concrete query whose
return date precedes its departure date. -/
theorem parse_query_no_date_ordering_witness :
    parse_query "NYC LON 05-12-2025 01-12-2025" =
      some ("NYC", "LON", "05-12-2025", some "01-12-2025") := by
  have h := parse_query_no_date_ordering "NYC".data "LON".data (by decide)
    (by decide) 5 12 2025 1 12 2025 (by decide) (by decide) (by decide)
  have e : grammarString "NYC".data "LON".data (dateChars 5 12 2025)
      (some (dateChars 1 12 2025)) = "NYC LON 05-12-2025 01-12-2025" := by decide
  rw [e] at h
  exact h.trans (by decide)

/-- C6: for a results view whose offer nodes all carry price
sub-elements except exactly one, the extractor yields one record per
node in display order: the records are the per-node extractions in
sequence, the count is preserved, and exactly one record carries the
`"N/A"` price sentinel — the one for the deficient node, whose other
fields (time, airline, duration) are still populated from its own
sub-elements. -/
theorem extractor_single_missing_price (tzdb : String → Option (NaiveDT → Int))
    (flight_date tz : String) (pre post : List FlightNode) (ts al du : String)
    (hts : ts ≠ "N/A")
    (hpre : ∀ fn ∈ pre, ∃ p, fn.price_el = some p ∧ p ≠ "N/A")
    (hpost : ∀ fn ∈ post, ∃ p, fn.price_el = some p ∧ p ≠ "N/A") :
    scrape_flight_details tzdb (pre ++ ⟨some ts, some al, some du, none⟩ :: post)
        flight_date tz =
      scrape_flight_details tzdb pre flight_date tz ++
        ⟨TimeVal.epoch (convert_to_utc_epoch tzdb flight_date ts tz), al, du,
          "N/A"⟩ :: scrape_flight_details tzdb post flight_date tz ∧
    (scrape_flight_details tzdb (pre ++ ⟨some ts, some al, some du, none⟩ :: post)
        flight_date tz).length =
      (pre ++ ⟨some ts, some al, some du, none⟩ :: post).length ∧
    (scrape_flight_details tzdb (pre ++ ⟨some ts, some al, some du, none⟩ :: post)
        flight_date tz).countP (fun rec => rec.price == "N/A") = 1 := by
  refine ⟨?_, by simp [scrape_flight_details], ?_⟩
  · simp [scrape_flight_details, scrape_one, hts]
  · simp only [scrape_flight_details, List.map_append, List.map_cons,
      List.countP_append, List.countP_cons]
    have hmid : (scrape_one tzdb flight_date tz
        ⟨some ts, some al, some du, none⟩).price == "N/A" := by
      simp [scrape_one]
    have hz : ∀ l : List FlightNode, (∀ fn ∈ l, ∃ p, fn.price_el = some p ∧
        p ≠ "N/A") →
        (l.map (scrape_one tzdb flight_date tz)).countP
          (fun rec => rec.price == "N/A") = 0 := by
      intro l hl
      rw [List.countP_eq_zero]
      intro rec hrec
      obtain ⟨fn, hfn, rfl⟩ := List.mem_map.mp hrec
      obtain ⟨p, hp, hpne⟩ := hl fn hfn
      simp [scrape_one, hp, hpne]
    rw [hz pre hpre, hz post hpost, hmid]
    simp

/-- C6 (witness): a three-node view where only the middle node lacks
its price sub-element extracts to exactly one `"N/A"`-priced record. -/
theorem extractor_single_missing_price_witness :
    (scrape_flight_details tzdbNY
        ([⟨some "10:30 AM", some "AA", some "6h 15m", some "$100"⟩] ++
          ⟨some "11:40 AM", some "BB", some "7h 05m", none⟩ ::
            [⟨some "01:05 PM", some "CC", some "5h 45m", some "$140"⟩])
        "01-12-2025" "America/New_York").countP
      (fun rec => rec.price == "N/A") = 1 :=
  (extractor_single_missing_price tzdbNY "01-12-2025" "America/New_York"
    [⟨some "10:30 AM", some "AA", some "6h 15m", some "$100"⟩]
    [⟨some "01:05 PM", some "CC", some "5h 45m", some "$140"⟩]
    "11:40 AM" "BB" "7h 05m" (by decide)
    (by rintro fn hfn; rcases List.mem_singleton.mp hfn with rfl
        exact ⟨"$100", rfl, by decide⟩)
    (by rintro fn hfn; rcases List.mem_singleton.mp hfn with rfl
        exact ⟨"$140", rfl, by decide⟩)).2.2

/-- C10: the pattern of `parse_query` is anchored only at the start of
the line, so trailing text beyond the grammar — a fifth token, or
characters appended directly after a valid date — is ignored and the
leading tokens still parse. -/
theorem parse_query_ignores_trailing_text :
    parse_query "NYC LON 01-12-2025 05-12-2025 junk" =
        some ("NYC", "LON", "01-12-2025", some "05-12-2025") ∧
      parse_query "NYC LON 01-12-2025xyz" =
        some ("NYC", "LON", "01-12-2025", none) := by
  exact ⟨by decide, by decide⟩

end FlightsSearch
